import Mathlib

/-!
Verification of the English-to-SQL translation engine (src/main.py).

Strings are modelled as `List Char`.  The Python regular expressions used by
the engine are modelled by a small backtracking matcher (`Re`, `mrun`) that
reproduces Python's leftmost, first-alternative, greedy semantics for the
exact constructs the source uses (literals, character classes, greedy
`*`/`+`/`?` over character classes, alternation, capturing groups).
-/

set_option maxRecDepth 10000

/-- Character-list form of a string literal. -/
def str (s : String) : List Char := s.data

/-- A schema maps table names to ordered column lists (Python dict in
insertion order). -/
abbrev Schema := List (List Char × List (List Char))

/-- Python `str.lower()` (ASCII model). -/
def lowerL (s : List Char) : List Char := s.map Char.toLower

/-- Does `hay` start with `needle`?  (Python `str.startswith` on lists.) -/
def startsWithL : List Char → List Char → Bool
  | _, [] => true
  | [], _ :: _ => false
  | a :: as, b :: bs => a == b && startsWithL as bs

/-- Python's substring test `needle in hay`. -/
def containsSub (hay needle : List Char) : Bool :=
  match hay with
  | [] => startsWithL [] needle
  | _ :: rest => startsWithL hay needle || containsSub rest needle

/-- Python `value.startswith(c)` for a single character. -/
def pyStarts (v : List Char) (c : Char) : Bool :=
  match v with
  | [] => false
  | a :: _ => a == c

/-- Python `value.endswith(c)` for a single character. -/
def pyEnds (v : List Char) (c : Char) : Bool :=
  match v.getLast? with
  | some a => a == c
  | none => false

/-- Python `value.isdigit()` (ASCII model): nonempty and all digits. -/
def pyIsDigit (v : List Char) : Bool := !v.isEmpty && v.all Char.isDigit

/-- Python whitespace class `\s` (also used by `str.strip`). -/
def wsC (c : Char) : Bool :=
  c == ' ' || c == '\t' || c == '\n' || c == '\r' || c == '\x0b' || c == '\x0c'

/-- Python `str.strip()`: drop whitespace from both ends. -/
def pyStrip (v : List Char) : List Char :=
  ((v.dropWhile wsC).reverse.dropWhile wsC).reverse

/-- Python `text.split(sep)` for a one-character separator. -/
def pySplit (sep : Char) : List Char → List (List Char)
  | [] => [[]]
  | c :: rest =>
    let r := pySplit sep rest
    if c == sep then [] :: r
    else
      match r with
      | [] => [[c]]
      | h :: t => (c :: h) :: t

/-- Join a list of strings with a separator (Python `sep.join`). -/
def joinSep (sep : List Char) : List (List Char) → List Char
  | [] => []
  | [x] => x
  | x :: y :: rest => x ++ sep ++ joinSep sep (y :: rest)

/-- Keyword set triggering SELECT classification (src/main.py line 11). -/
def select_keywords : List (List Char) :=
  [str "show", str "display", str "get", str "find", str "select",
   str "retrieve", str "list", str "query"]

/-- Keyword set triggering INSERT classification (src/main.py line 12). -/
def insert_keywords : List (List Char) :=
  [str "add", str "insert", str "create", str "put", str "include"]

/-- Keyword set triggering UPDATE classification (src/main.py line 13). -/
def update_keywords : List (List Char) :=
  [str "update", str "modify", str "change", str "edit", str "alter", str "set"]

/-- Keyword set triggering DELETE classification (src/main.py line 14). -/
def delete_keywords : List (List Char) :=
  [str "delete", str "remove", str "drop", str "exclude", str "eliminate"]

/-- Does any keyword of the set occur as a substring of the lowered query?
(Python `any(keyword in query for keyword in kws)`.) -/
def kwMatch (kws : List (List Char)) (query : List Char) : Bool :=
  kws.any (fun k => containsSub (lowerL query) k)

/-- Intent classification, `identify_query_type` (src/main.py lines 40-54). -/
def identify_query_type (query : List Char) : List Char :=
  if kwMatch select_keywords query then str "SELECT"
  else if kwMatch insert_keywords query then str "INSERT"
  else if kwMatch update_keywords query then str "UPDATE"
  else if kwMatch delete_keywords query then str "DELETE"
  else str "UNKNOWN"

/-- The per-table match test of `identify_table`: the table name, or the name
with its final character stripped, occurs in the lowered query. -/
def tableMatches (t : List Char) (query : List Char) : Bool :=
  containsSub (lowerL query) t || containsSub (lowerL query) t.dropLast

/-- Table resolution, `identify_table` (src/main.py lines 56-62): first
matching table in registry order, else none. -/
def identify_table (tables : Schema) (query : List Char) : Option (List Char) :=
  match tables with
  | [] => none
  | (t, _) :: rest =>
    if tableMatches t query then some t else identify_table rest query

/-- Column resolution, `identify_columns` (src/main.py lines 64-77): every
column of the table occurring as a substring of the lowered query, in schema
order.  The `table == []` test models Python's `if not table`. -/
def identify_columns (tables : Schema) (query : List Char) (table : List Char) :
    List (List Char) :=
  if table == ([] : List Char) then []
  else
    match List.lookup table tables with
    | none => []
    | some cols => cols.filter (fun c => containsSub (lowerL query) c)

/-- Value-literal normalization shared by `extract_conditions` (lines
109-112), `generate_insert_query` (lines 166-174) and
`generate_update_query` (lines 197-200): keep digit strings and already
single- or double-quoted strings, otherwise wrap in single quotes. -/
def normalizeValue (value : List Char) : List Char :=
  if !pyIsDigit value && !(pyStarts value '\'' && pyEnds value '\'') then
    if !(pyStarts value '"' && pyEnds value '"') then
      '\'' :: (value ++ ['\''])
    else value
  else value

/-- Regular-expression syntax: exactly the constructs the source patterns
use.  Repetition is restricted to character classes, which is all the
source needs and keeps the matcher structurally recursive. -/
inductive Re where
  | lit : List Char → Re
  | cls : (Char → Bool) → Re
  | star : (Char → Bool) → Re
  | plus : (Char → Bool) → Re
  | cat : Re → Re → Re
  | alt : Re → Re → Re
  | opt : Re → Re
  | grp : Re → Re

/-- Backtracking matcher: all (suffix, captures) outcomes of matching `r`
at the front of `s`, ordered by Python preference (greedy repetition
longest-first, alternation left-first). -/
def mrun : Re → List Char → List (List Char × List (List Char))
  | .lit l, s => if startsWithL s l then [(s.drop l.length, [])] else []
  | .cls p, s =>
    match s with
    | [] => []
    | c :: rest => if p c then [(rest, [])] else []
  | .star p, s =>
    let n := (s.takeWhile p).length
    (List.range (n + 1)).map (fun i => (s.drop (n - i), []))
  | .plus p, s =>
    let n := (s.takeWhile p).length
    (List.range n).map (fun i => (s.drop (n - i), []))
  | .cat a b, s =>
    (mrun a s).flatMap (fun pr => (mrun b pr.1).map (fun qr => (qr.1, pr.2 ++ qr.2)))
  | .alt a b, s => mrun a s ++ mrun b s
  | .opt a, s => mrun a s ++ [(s, [])]
  | .grp a, s =>
    (mrun a s).map (fun pr => (pr.1, s.take (s.length - pr.1.length) :: pr.2))

/-- First (Python-preferred) match of `r` anchored at the front of `s`. -/
def tryAt (r : Re) (s : List Char) : Option (List Char × List (List Char)) :=
  (mrun r s).head?

/-- Scanning loop behind `finditer`: at each position try an anchored match;
on success emit `(group0, captures)` and continue after the match (advancing
one character on a zero-width match, as Python does), else advance one
character.  `fuel` bounds the recursion by the string length. -/
def scanRe (r : Re) : Nat → List Char → List (List Char × List (List Char))
  | 0, _ => []
  | fuel + 1, s =>
    match tryAt r s with
    | some (suffix, caps) =>
      let m0 := s.take (s.length - suffix.length)
      (m0, caps) ::
        (if suffix.length < s.length then scanRe r fuel suffix
         else scanRe r fuel (s.drop 1))
    | none =>
      match s with
      | [] => []
      | _ :: rest => scanRe r fuel rest

/-- Python `re.finditer`: all non-overlapping matches, left to right. -/
def finditer (r : Re) (s : List Char) : List (List Char × List (List Char)) :=
  scanRe r (s.length + 1) s

/-- Python `re.search`: the first match, if any. -/
def research (r : Re) (s : List Char) : Option (List Char × List (List Char)) :=
  (finditer r s).head?

/-- Python `\w` (ASCII model): letters, digits, underscore. -/
def wordC (c : Char) : Bool := c.isAlphanum || c == '_'

/-- Value alternation `(\w+|\d+|'[^']+'|\"[^\"]+\")` used by patterns 1, 4
and by the update SET pattern. -/
def valueRe : Re :=
  .alt (.plus wordC)
    (.alt (.plus Char.isDigit)
      (.alt (.cat (.lit ['\'']) (.cat (.plus (fun c => c != '\'')) (.lit ['\''])))
        (.cat (.lit ['"']) (.cat (.plus (fun c => c != '"')) (.lit ['"'])))))

/-- Predicate pattern 1: `where (\w+) (?:is|=|equals|equal to) (value)`. -/
def whereP1 : Re :=
  .cat (.lit (str "where "))
    (.cat (.grp (.plus wordC))
      (.cat (.lit [' '])
        (.cat (.alt (.lit (str "is"))
                (.alt (.lit (str "="))
                  (.alt (.lit (str "equals")) (.lit (str "equal to")))))
          (.cat (.lit [' ']) (.grp valueRe)))))

/-- Predicate pattern 2: `where (\w+) (?:>|greater than) (\d+)`. -/
def whereP2 : Re :=
  .cat (.lit (str "where "))
    (.cat (.grp (.plus wordC))
      (.cat (.lit [' '])
        (.cat (.alt (.lit (str ">")) (.lit (str "greater than")))
          (.cat (.lit [' ']) (.grp (.plus Char.isDigit))))))

/-- Predicate pattern 3: `where (\w+) (?:<|less than) (\d+)`. -/
def whereP3 : Re :=
  .cat (.lit (str "where "))
    (.cat (.grp (.plus wordC))
      (.cat (.lit [' '])
        (.cat (.alt (.lit (str "<")) (.lit (str "less than")))
          (.cat (.lit [' ']) (.grp (.plus Char.isDigit))))))

/-- Predicate pattern 4: `where (\w+) like (value)`. -/
def whereP4 : Re :=
  .cat (.lit (str "where "))
    (.cat (.grp (.plus wordC))
      (.cat (.lit (str " like ")) (.grp valueRe)))

/-- Predicate pattern 5: `where (\w+) in \(([^)]+)\)`. -/
def whereP5 : Re :=
  .cat (.lit (str "where "))
    (.cat (.grp (.plus wordC))
      (.cat (.lit (str " in ("))
        (.cat (.grp (.plus (fun c => c != ')'))) (.lit [')']))))

/-- The five predicate patterns in source order (src/main.py lines 84-90). -/
def wherePatterns : List Re := [whereP1, whereP2, whereP3, whereP4, whereP5]

/-- Operator determination by substring inspection of the whole matched text
(src/main.py lines 98-107). -/
def condOperator (m0 : List Char) : List Char :=
  if containsSub m0 (str "greater than") || containsSub m0 (str ">") then str ">"
  else if containsSub m0 (str "less than") || containsSub m0 (str "<") then str "<"
  else if containsSub m0 (str "like") then str "LIKE"
  else if containsSub m0 (str "in") then str "IN"
  else str "="

/-- Build one condition triple from a regex match: (column, operator,
normalized value). -/
def condOfMatch (m : List Char × List (List Char)) :
    List Char × List Char × List Char :=
  (m.2.headD [], condOperator m.1, normalizeValue ((m.2.drop 1).headD []))

/-- Predicate extraction, `extract_conditions` (src/main.py lines 79-116):
all matches of the five patterns against the lowered query, in pattern
order then left-to-right match order. -/
def extract_conditions (query : List Char) :
    List (List Char × List Char × List Char) :=
  (wherePatterns.map (fun p => (finditer p (lowerL query)).map condOfMatch)).flatten

/-- Sentinel returned when no table is resolved. -/
def tableError : List Char := str "ERROR: Could not identify table name in the query."

/-- Render one condition triple as `col op value` for a WHERE clause. -/
def formatCondition (c : List Char × List Char × List Char) : List Char :=
  c.1 ++ [' '] ++ c.2.1 ++ [' '] ++ c.2.2

/-- SELECT builder, `generate_select_query` (src/main.py lines 118-138). -/
def generate_select_query (tables : Schema) (query : List Char) : List Char :=
  match identify_table tables query with
  | none => tableError
  | some table =>
    let columns := identify_columns tables query table
    let conditions := extract_conditions query
    let column_clause := if columns.isEmpty then str "*" else joinSep (str ", ") columns
    let base := str "SELECT " ++ column_clause ++ str " FROM " ++ table
    (if conditions.isEmpty then base
     else base ++ str " WHERE " ++ joinSep (str " AND ") (conditions.map formatCondition))
      ++ str ";"

/-- The loose values pattern `values?\s*(?:\(|:)?\s*([^)]+)(?:\))?`
(src/main.py line 148). -/
def valuesRe : Re :=
  .cat (.lit (str "value"))
    (.cat (.opt (.lit ['s']))
      (.cat (.star wsC)
        (.cat (.opt (.alt (.lit ['(']) (.lit [':'])))
          (.cat (.star wsC)
            (.cat (.grp (.plus (fun c => c != ')')))
              (.opt (.lit [')'])))))))

/-- Sentinel returned when no values are found for INSERT. -/
def insertValuesError : List Char := str "ERROR: Could not identify values to insert."

/-- INSERT builder, `generate_insert_query` (src/main.py lines 140-180). -/
def generate_insert_query (tables : Schema) (query : List Char) : List Char :=
  match identify_table tables query with
  | none => tableError
  | some table =>
    match research valuesRe (lowerL query) with
    | none => insertValuesError
    | some m =>
      let value_text := m.2.headD []
      let values := (pySplit ',' value_text).map pyStrip
      let mentioned := identify_columns tables query table
      let columns :=
        if mentioned.isEmpty then
          ((List.lookup table tables).getD []).filter (fun c => c ≠ str "id")
        else mentioned
      let formatted := values.map normalizeValue
      str "INSERT INTO " ++ table ++ str " (" ++ joinSep (str ", ") columns
        ++ str ") VALUES (" ++ joinSep (str ", ") formatted ++ str ");"

/-- The SET pattern `set (\w+) to (value)` (src/main.py line 189). -/
def setRe : Re :=
  .cat (.lit (str "set "))
    (.cat (.grp (.plus wordC))
      (.cat (.lit (str " to ")) (.grp valueRe)))

/-- Sentinel returned when no assignments are found for UPDATE. -/
def updateValuesError : List Char := str "ERROR: Could not identify values to update."

/-- UPDATE builder, `generate_update_query` (src/main.py lines 182-218). -/
def generate_update_query (tables : Schema) (query : List Char) : List Char :=
  match identify_table tables query with
  | none => tableError
  | some table =>
    let set_clauses :=
      (finditer setRe (lowerL query)).map
        (fun m => m.2.headD [] ++ str " = " ++ normalizeValue ((m.2.drop 1).headD []))
    if set_clauses.isEmpty then updateValuesError
    else
      let conditions := extract_conditions query
      let base := str "UPDATE " ++ table ++ str " SET " ++ joinSep (str ", ") set_clauses
      (if conditions.isEmpty then base
       else base ++ str " WHERE "
              ++ joinSep (str " AND ") (conditions.map formatCondition))
        ++ str ";"

/-- Sentinel returned instead of an unconditional DELETE. -/
def deleteWarning : List Char :=
  str "WARNING: This query would delete all records from the table. Please specify conditions."

/-- DELETE builder, `generate_delete_query` (src/main.py lines 220-240). -/
def generate_delete_query (tables : Schema) (query : List Char) : List Char :=
  match identify_table tables query with
  | none => tableError
  | some table =>
    let conditions := extract_conditions query
    if conditions.isEmpty then deleteWarning
    else
      str "DELETE FROM " ++ table ++ str " WHERE "
        ++ joinSep (str " AND ") (conditions.map formatCondition) ++ str ";"

/-- Sentinel returned for UNKNOWN intent. -/
def unknownMessage : List Char :=
  str "Sorry, I couldn't understand the type of query you want to create."

/-- Top-level entry point, `generate_query` (src/main.py lines 242-255). -/
def generate_query (tables : Schema) (english_query : List Char) : List Char :=
  let query_type := identify_query_type english_query
  if query_type == str "SELECT" then generate_select_query tables english_query
  else if query_type == str "INSERT" then generate_insert_query tables english_query
  else if query_type == str "UPDATE" then generate_update_query tables english_query
  else if query_type == str "DELETE" then generate_delete_query tables english_query
  else unknownMessage

/-- Built-in default schema (src/main.py lines 29-33). -/
def defaultTables : Schema :=
  [(str "users", [str "id", str "name", str "email", str "age", str "created_at"]),
   (str "products", [str "id", str "name", str "price", str "category", str "description"]),
   (str "orders", [str "id", str "user_id", str "total", str "status", str "order_date"])]

/-- Every string contains the empty string (Python `"" in s` is `True`). -/
theorem containsSub_nil (hay : List Char) : containsSub hay [] = true := by
  cases hay <;> simp [containsSub, startsWithL]

/-- A list of length at most one loses everything when its last element is
dropped. -/
theorem dropLast_of_short (t : List Char) (h : t.length ≤ 1) : t.dropLast = [] := by
  match t with
  | [] => rfl
  | [_] => rfl
  | _ :: _ :: _ => simp at h

/-- Appending a final character determines `pyEnds`. -/
theorem pyEnds_append_last (l : List Char) (a c : Char) :
    pyEnds (l ++ [a]) c = (a == c) := by
  simp [pyEnds, List.getLast?_concat]

/-- Appending a lone `;` yields a `;`-terminated string. -/
theorem exists_semi_append (B : List Char) : ∃ s, B ++ str ";" = s ++ [';'] := ⟨B, rfl⟩

/-- Appending `);` also yields a `;`-terminated string. -/
theorem exists_semi_append2 (B : List Char) : ∃ s, B ++ str ");" = s ++ [';'] := by
  refine ⟨B ++ [')'], ?_⟩
  simp only [List.append_assoc]
  rfl

/-- C3: classification precedence of `identify_query_type`: the four keyword
sets are tested in the order SELECT, INSERT, UPDATE, DELETE; the first set
with a substring match wins (so a sentence with an INSERT keyword is
classified SELECT when a SELECT keyword is also present, else INSERT), and
UNKNOWN is returned exactly when no set matches. -/
theorem identify_query_type_precedence (q : List Char) :
    (kwMatch insert_keywords q = true →
      identify_query_type q =
        if kwMatch select_keywords q then str "SELECT" else str "INSERT")
    ∧ (kwMatch select_keywords q = true → identify_query_type q = str "SELECT")
    ∧ (kwMatch select_keywords q = false → kwMatch insert_keywords q = true →
        identify_query_type q = str "INSERT")
    ∧ (kwMatch select_keywords q = false → kwMatch insert_keywords q = false →
        kwMatch update_keywords q = true → identify_query_type q = str "UPDATE")
    ∧ (kwMatch select_keywords q = false → kwMatch insert_keywords q = false →
        kwMatch update_keywords q = false → kwMatch delete_keywords q = true →
        identify_query_type q = str "DELETE")
    ∧ (identify_query_type q = str "UNKNOWN" ↔
        kwMatch select_keywords q = false ∧ kwMatch insert_keywords q = false ∧
        kwMatch update_keywords q = false ∧ kwMatch delete_keywords q = false) := by
  unfold identify_query_type
  by_cases h1 : kwMatch select_keywords q <;>
    by_cases h2 : kwMatch insert_keywords q <;>
      by_cases h3 : kwMatch update_keywords q <;>
        by_cases h4 : kwMatch delete_keywords q <;>
          simp [h1, h2, h3, h4] <;> decide

/-- Witness for C3 at a concrete sentence with an INSERT keyword and no
SELECT keyword. -/
theorem identify_query_type_precedence_witness :
    identify_query_type (str "put it in the box") =
      if kwMatch select_keywords (str "put it in the box") then str "SELECT"
      else str "INSERT" :=
  (identify_query_type_precedence (str "put it in the box")).1 (by rfl)

/-- C7: value normalization is idempotent: an already single-quoted or
double-quoted value and a pure digit string are returned unchanged, and
normalizing twice equals normalizing once. -/
theorem normalizeValue_idempotent (v : List Char) :
    (pyStarts v '\'' = true → pyEnds v '\'' = true → normalizeValue v = v)
    ∧ (pyStarts v '"' = true → pyEnds v '"' = true → normalizeValue v = v)
    ∧ (pyIsDigit v = true → normalizeValue v = v)
    ∧ normalizeValue (normalizeValue v) = normalizeValue v := by
  refine ⟨fun h1 h2 => by simp [normalizeValue, h1, h2],
          fun h1 h2 => by simp [normalizeValue, h1, h2],
          fun h => by simp [normalizeValue, h], ?_⟩
  by_cases hd : pyIsDigit v
  · simp [normalizeValue, hd]
  · by_cases hs : pyStarts v '\'' && pyEnds v '\''
    · simp [normalizeValue, hd, hs]
    · by_cases hq : pyStarts v '"' && pyEnds v '"'
      · simp [normalizeValue, hd, hs, hq]
      · have hwrap : normalizeValue v = '\'' :: (v ++ ['\'']) := by
          simp [normalizeValue, hd, hs, hq]
        rw [hwrap]
        have hstart : pyStarts ('\'' :: (v ++ ['\''])) '\'' = true := by
          simp [pyStarts]
        have hend : pyEnds ('\'' :: (v ++ ['\''])) '\'' = true := by
          have : ('\'' :: (v ++ ['\''])) = ('\'' :: v) ++ ['\''] := by simp
          rw [this, pyEnds_append_last]
          rfl
        simp [normalizeValue, hstart, hend]

/-- Witness for C7 at a concrete pre-quoted value. -/
theorem normalizeValue_idempotent_witness :
    normalizeValue (str "'w'") = str "'w'" :=
  (normalizeValue_idempotent (str "'w'")).1 (by rfl) (by rfl)

/-- C10: a schema table whose name has length at most 1 satisfies the table
match test on every sentence (its name minus the final character is the
empty string, a substring of everything); when it is the first table of the
registry, `identify_table` always resolves to it and never returns none. -/
theorem identify_table_short_name (q t : List Char) (cols : List (List Char))
    (rest : Schema) (h : t.length ≤ 1) :
    tableMatches t q = true ∧ identify_table ((t, cols) :: rest) q = some t := by
  have hmatch : tableMatches t q = true := by
    unfold tableMatches
    rw [dropLast_of_short t h, containsSub_nil]
    simp
  exact ⟨hmatch, by simp [identify_table, hmatch]⟩

/-- Witness for C10 with the length-1 table name `x` and a sentence that
mentions no table at all. -/
theorem identify_table_short_name_witness :
    identify_table [(str "x", [])] (str "hello") = some (str "x") :=
  (identify_table_short_name (str "hello") (str "x") [] [] (by decide)).2

/-- C1: a DELETE-classified sentence with a resolved table and zero
extracted predicates yields exactly the WARNING sentinel, whose text does
not contain `DELETE FROM`; moreover the DELETE builder never emits
`DELETE FROM` when the predicate list is empty. -/
theorem delete_zero_predicates_warning (tables : Schema) (q t : List Char)
    (hty : identify_query_type q = str "DELETE")
    (ht : identify_table tables q = some t)
    (hc : extract_conditions q = []) :
    generate_query tables q = deleteWarning
    ∧ containsSub (generate_query tables q) (str "DELETE FROM") = false
    ∧ (∀ (tables2 : Schema) (q2 : List Char), extract_conditions q2 = [] →
        containsSub (generate_delete_query tables2 q2) (str "DELETE FROM") = false) := by
  have hdel : generate_delete_query tables q = deleteWarning := by
    unfold generate_delete_query
    rw [ht, hc]
    rfl
  have hmain : generate_query tables q = deleteWarning := by
    unfold generate_query
    rw [hty]
    simpa using hdel
  refine ⟨hmain, by rw [hmain]; decide, ?_⟩
  intro tables2 q2 hc2
  have hshape : generate_delete_query tables2 q2 = tableError ∨
      generate_delete_query tables2 q2 = deleteWarning := by
    unfold generate_delete_query
    cases identify_table tables2 q2 with
    | none => exact Or.inl rfl
    | some t2 =>
      right
      rw [hc2]
      rfl
  rcases hshape with h | h <;> rw [h] <;> decide

/-- Witness for C1 on the spec's own example sentence. -/
theorem delete_zero_predicates_warning_witness :
    generate_query defaultTables (str "delete all orders") = deleteWarning :=
  (delete_zero_predicates_warning defaultTables (str "delete all orders")
    (str "orders") (by rfl) (by rfl) (by rfl)).1

/-- C2: the top-level entry point is a total function whose result is
either a `;`-terminated statement string or one of the five fixed sentinel
strings. -/
theorem generate_query_result_shape (tables : Schema) (q : List Char) :
    (∃ s, generate_query tables q = s ++ [';'])
    ∨ generate_query tables q ∈
        [tableError, insertValuesError, updateValuesError, deleteWarning,
         unknownMessage] := by
  unfold generate_query
  by_cases h1 : identify_query_type q == str "SELECT"
  · simp only [h1, if_pos]
    unfold generate_select_query
    cases identify_table tables q with
    | none => right; simp
    | some t => left; exact exists_semi_append _
  · by_cases h2 : identify_query_type q == str "INSERT"
    · simp only [h1, h2, if_neg, if_pos, Bool.not_eq_true]
      unfold generate_insert_query
      cases identify_table tables q with
      | none => right; simp
      | some t =>
        cases research valuesRe (lowerL q) with
        | none => right; simp
        | some m => left; exact exists_semi_append2 _
    · by_cases h3 : identify_query_type q == str "UPDATE"
      · simp only [h1, h2, h3, if_neg, if_pos, Bool.not_eq_true]
        unfold generate_update_query
        cases identify_table tables q with
        | none => right; simp
        | some t =>
          by_cases hs : finditer setRe (lowerL q) = []
          · right; simp [hs]
          · left
            simp only [List.isEmpty_eq_true, List.map_eq_nil_iff, hs, if_false]
            exact exists_semi_append _
      · by_cases h4 : identify_query_type q == str "DELETE"
        · simp only [h1, h2, h3, h4, if_neg, if_pos, Bool.not_eq_true]
          unfold generate_delete_query
          cases identify_table tables q with
          | none => right; simp
          | some t =>
            by_cases hc : extract_conditions q = []
            · right; simp [hc]
            · left
              simp only [List.isEmpty_eq_true, hc, if_false]
              exact exists_semi_append _
        · simp only [h1, h2, h3, h4, if_neg, Bool.not_eq_true]
          right; simp

/-- Counterexample for C4: on `show users where likes is 5`, predicate
pattern 1 matches (column `likes`), and the matched text contains `like`,
so the produced operator is `LIKE` — not one of `=`, `>`, `<`. -/
theorem pattern1_operator_cex :
    (finditer whereP1 (lowerL (str "show users where likes is 5"))).map
        (fun m => condOperator m.1) = [str "LIKE"]
    ∧ str "LIKE" ≠ str "=" ∧ str "LIKE" ≠ str ">" ∧ str "LIKE" ≠ str "<" :=
  ⟨rfl, by decide, by decide, by decide⟩

/-- C4 (amended): every pattern-1 match contributes a condition whose
operator comes from the substring cascade over the full matched text:
`>` for `greater than`/`>`, else `<` for `less than`/`<`, else `LIKE` when
`like` occurs, else `IN` when `in` occurs, else `=` — so exactly the five
operators `=`, `>`, `<`, `LIKE`, `IN` can result from a pattern-1 match. -/
theorem pattern1_operator_characterization (q : List Char)
    (m : List Char × List (List Char)) (hm : m ∈ finditer whereP1 (lowerL q)) :
    condOfMatch m ∈ extract_conditions q
    ∧ condOperator m.1 ∈ [str "=", str ">", str "<", str "LIKE", str "IN"]
    ∧ ((containsSub m.1 (str "greater than") || containsSub m.1 (str ">")) = true →
        condOperator m.1 = str ">")
    ∧ ((containsSub m.1 (str "greater than") || containsSub m.1 (str ">")) = false →
        (containsSub m.1 (str "less than") || containsSub m.1 (str "<")) = true →
        condOperator m.1 = str "<")
    ∧ ((containsSub m.1 (str "greater than") || containsSub m.1 (str ">")) = false →
        (containsSub m.1 (str "less than") || containsSub m.1 (str "<")) = false →
        containsSub m.1 (str "like") = true → condOperator m.1 = str "LIKE")
    ∧ ((containsSub m.1 (str "greater than") || containsSub m.1 (str ">")) = false →
        (containsSub m.1 (str "less than") || containsSub m.1 (str "<")) = false →
        containsSub m.1 (str "like") = false → containsSub m.1 (str "in") = true →
        condOperator m.1 = str "IN")
    ∧ ((containsSub m.1 (str "greater than") || containsSub m.1 (str ">")) = false →
        (containsSub m.1 (str "less than") || containsSub m.1 (str "<")) = false →
        containsSub m.1 (str "like") = false → containsSub m.1 (str "in") = false →
        condOperator m.1 = str "=") := by
  constructor
  · unfold extract_conditions wherePatterns
    simp only [List.map_cons, List.map_nil, List.flatten_cons, List.flatten_nil]
    exact List.mem_append_left _ (List.mem_map_of_mem _ hm)
  · unfold condOperator
    by_cases hg : (containsSub m.1 (str "greater than") || containsSub m.1 (str ">")) = true <;>
      by_cases hl : (containsSub m.1 (str "less than") || containsSub m.1 (str "<")) = true <;>
        by_cases hk : containsSub m.1 (str "like") = true <;>
          by_cases hi : containsSub m.1 (str "in") = true <;>
            simp [hg, hl, hk, hi]

/-- Witness for C4's amended theorem at the counterexample sentence. -/
theorem pattern1_operator_characterization_witness :
    condOfMatch (str "where likes is 5", [str "likes", str "5"])
      ∈ extract_conditions (str "show users where likes is 5") :=
  (pattern1_operator_characterization (str "show users where likes is 5")
    (str "where likes is 5", [str "likes", str "5"]) (by decide)).1

/-- Counterexample for C5: the column `age` is mentioned in the sentence,
so the column clause is `age`, not `*`, and the generated query is not the
string the claim expects. -/
theorem select_age_example_cex :
    generate_query defaultTables (str "show all users where age > 18")
      ≠ str "SELECT * FROM users WHERE age > 18;" := by decide

/-- C5 (amended): against the default schema, `show all users where age >
18` yields `SELECT age FROM users WHERE age > 18;` — the column clause is
`age` because the column name `age` occurs in the sentence. -/
theorem select_age_example :
    generate_query defaultTables (str "show all users where age > 18")
      = str "SELECT age FROM users WHERE age > 18;" := rfl

/-- Counterexample for C6: the result of translating the claim's INSERT
sentence does not even contain the substring `INSERT`. -/
theorem insert_widget_example_cex :
    containsSub
        (generate_query defaultTables
          (str "add a product with values ('Widget', 9.99, 'tools', 'A widget')"))
        (str "INSERT") = false := by decide

/-- C6 (amended): `add a product with values ('Widget', 9.99, 'tools', 'A
widget')` is classified SELECT, because the SELECT keyword `get` occurs
inside `widget`; the resolved table is `products` (via the singular
`product`) and the resolved column is `id` (inside `widget`), so the
result is `SELECT id FROM products;`. -/
theorem insert_widget_example :
    generate_query defaultTables
        (str "add a product with values ('Widget', 9.99, 'tools', 'A widget')")
      = str "SELECT id FROM products;" := rfl

/-- C8: for an INSERT-dispatched sentence with resolved table `t` (schema
columns `cols`) and a located values match `m`: when no column is
mentioned, the INSERT column list is `cols` minus every column literally
named `id`; when columns are mentioned, they are used as-is (no `id`
exclusion). -/
theorem insert_column_defaulting (tables : Schema) (q t : List Char)
    (cols : List (List Char)) (m : List Char × List (List Char))
    (hty : identify_query_type q = str "INSERT")
    (ht : identify_table tables q = some t)
    (hl : List.lookup t tables = some cols)
    (hv : research valuesRe (lowerL q) = some m) :
    (identify_columns tables q t = [] →
      generate_query tables q =
        str "INSERT INTO " ++ t ++ str " ("
          ++ joinSep (str ", ") (cols.filter (fun c => c ≠ str "id"))
          ++ str ") VALUES ("
          ++ joinSep (str ", ")
              (((pySplit ',' (m.2.headD [])).map pyStrip).map normalizeValue)
          ++ str ");")
    ∧ (∀ c cs, identify_columns tables q t = c :: cs →
      generate_query tables q =
        str "INSERT INTO " ++ t ++ str " (" ++ joinSep (str ", ") (c :: cs)
          ++ str ") VALUES ("
          ++ joinSep (str ", ")
              (((pySplit ',' (m.2.headD [])).map pyStrip).map normalizeValue)
          ++ str ");") := by
  have hq : generate_query tables q = generate_insert_query tables q := by
    unfold generate_query
    rw [hty]
    rfl
  constructor
  · intro hc
    rw [hq]
    unfold generate_insert_query
    simp only [ht, hv, hc, hl]
    rfl
  · intro c cs hc
    rw [hq]
    unfold generate_insert_query
    simp only [ht, hv, hc]
    rfl

/-- Witness for C8: an INSERT sentence mentioning no column of `orders`
defaults to the schema columns with `id` excluded. -/
theorem insert_column_defaulting_witness :
    generate_query defaultTables (str "insert into orders values (5, 7, 8, 9)")
      = str "INSERT INTO orders (user_id, total, status, order_date) VALUES (5, 7, 8, 9);" := by
  have h := (insert_column_defaulting defaultTables
      (str "insert into orders values (5, 7, 8, 9)") (str "orders")
      [str "id", str "user_id", str "total", str "status", str "order_date"]
      (str "values (5, 7, 8, 9)", [str "5, 7, 8, 9"])
      rfl rfl rfl rfl).1 rfl
  rw [h]
  rfl

/-- C9: only nonempty all-digit strings pass Python's `isdigit` test; any
value containing a non-digit character (such as `9.99`) that is not
pre-quoted is wrapped in single quotes by the shared value normalization,
as exercised end to end on an INSERT sentence carrying `9.99`. -/
theorem numeric_digits_only :
    (∀ (v : List Char) (c : Char), c ∈ v → c.isDigit = false → pyIsDigit v = false)
    ∧ pyIsDigit (str "9.99") = false
    ∧ (∀ v : List Char, pyIsDigit v = false →
        (pyStarts v '\'' && pyEnds v '\'') = false →
        (pyStarts v '"' && pyEnds v '"') = false →
        normalizeValue v = '\'' :: (v ++ ['\'']))
    ∧ normalizeValue (str "9.99") = str "'9.99'"
    ∧ generate_query defaultTables
        (str "put a product with values: 'gizmo', 9.99, 'tools', 'nice'")
      = str "INSERT INTO products (name, price, category, description) VALUES ('gizmo', '9.99', 'tools', 'nice');" := by
  refine ⟨?_, by decide, ?_, by decide, by rfl⟩
  · intro v c hc hd
    have hall : ¬ (v.all Char.isDigit = true) := fun h => by
      have hdig := List.all_eq_true.mp h c hc
      rw [hd] at hdig
      exact Bool.false_ne_true hdig
    have hall2 : v.all Char.isDigit = false := Bool.eq_false_iff.mpr hall
    simp [pyIsDigit, hall2]
  · intro v h1 h2 h3
    simp [normalizeValue, h1, h2, h3]

/-- Witness for C9 with a value containing a non-digit character. -/
theorem numeric_digits_only_witness :
    normalizeValue (str "a.b") = '\'' :: (str "a.b" ++ ['\'']) :=
  numeric_digits_only.2.2.1 (str "a.b")
    (numeric_digits_only.1 (str "a.b") 'a' (by decide) (by decide))
    (by decide) (by decide)
